import Mathlib

/-!
Verification of the configuration-validation logic of the Prometheus remote
write exporter (`exporter/prometheusremotewriteexporter/config.go`).

The Go code is shallowly embedded: every struct becomes a Lean structure,
`Config.Validate` (a pure method over its receiver) becomes a Lean function
returning `Option String` (`none` for a nil error, `some msg` for
`fmt.Errorf(msg)`), and Go `int` becomes `Int`.
-/

namespace PRW

/-- Embeds `exporterhelper.TimeoutSettings` (external collaborator,
referenced by composition only; one representative field). -/
structure TimeoutSettings where
  Timeout : Int
deriving DecidableEq, Repr

/-- Embeds `exporterhelper.RetrySettings` (external collaborator,
referenced by composition only; representative fields). -/
structure RetrySettings where
  Enabled : Bool
  InitialInterval : Int
  MaxInterval : Int
  MaxElapsedTime : Int
deriving DecidableEq, Repr

/-- Embeds `confighttp.HTTPClientSettings` (external collaborator,
referenced by composition only; one representative field). -/
structure HTTPClientSettings where
  Endpoint : String
deriving DecidableEq, Repr

/-- Embeds `resourcetotelemetry.Settings` (external collaborator). -/
structure ResourceToTelemetrySettings where
  Enabled : Bool
deriving DecidableEq, Repr

/-- Embeds `config.ExporterSettings` (external collaborator; a typed
component identifier). -/
structure ExporterSettings where
  id : String
deriving DecidableEq, Repr

/-- Modelled from the spec: the write-ahead-log sub-configuration is an
externally-owned record not detailed by this module ("opaque pointer, nil
when disabled"); representative fields only. -/
structure WALConfig where
  Directory : String
  BufferSize : Int
deriving DecidableEq, Repr

/-- Embeds Go struct `RemoteWriteQueue` from `config.go`. -/
structure RemoteWriteQueue where
  Enabled : Bool
  QueueSize : Int
  NumConsumers : Int
deriving DecidableEq, Repr

/-- Embeds Go struct `MultiTenancy` from `config.go`. -/
structure MultiTenancy where
  Enabled : Bool
  Header : String
  QueryParam : String
  FromLabel : String
  DefaultTenant : String
deriving DecidableEq, Repr

/-- Embeds Go struct `Config` from `config.go`.  `ExternalLabels` is a Go
map, embedded as an association list; `WAL` is a nullable pointer, embedded
as `Option`. -/
structure Config where
  ExporterSettings : ExporterSettings
  TimeoutSettings : TimeoutSettings
  RetrySettings : RetrySettings
  sanitizeLabel : Bool
  Namespace : String
  RemoteWriteQueue : RemoteWriteQueue
  MultiTenancy : MultiTenancy
  ExternalLabels : List (String × String)
  HTTPClientSettings : HTTPClientSettings
  ResourceToTelemetrySettings : ResourceToTelemetrySettings
  WAL : Option WALConfig
deriving DecidableEq, Repr

/-- Embeds `func (cfg *Config) Validate() error` from `config.go`,
check for check in source order.  `none` is the nil error; `some msg`
is `fmt.Errorf(msg)`. -/
def Config.Validate (cfg : Config) : Option String :=
  if cfg.RemoteWriteQueue.QueueSize < 0 then
    some "remote write queue size can't be negative"
  else if cfg.RemoteWriteQueue.Enabled && cfg.RemoteWriteQueue.QueueSize == 0 then
    some "a 0 size queue will drop all the data"
  else if cfg.RemoteWriteQueue.NumConsumers < 0 then
    some "remote write consumer number can't be negative"
  else if cfg.MultiTenancy.Enabled && cfg.MultiTenancy.Header == ""
      && cfg.MultiTenancy.QueryParam == "" then
    some "one of multi_tenancy header or query_param should be set"
  else if cfg.MultiTenancy.Enabled && cfg.MultiTenancy.FromLabel == "" then
    some "from_label should be set to find tenant name"
  else
    none

/-- State-passing embedding of the same method: Go receives `cfg` through a
pointer, so each `return` is translated as a pair of the returned error and
the receiver's state at that point.  The body contains no assignment, so each
exit returns the entry state. -/
def Config.ValidateSt (cfg : Config) : Option String × Config :=
  if cfg.RemoteWriteQueue.QueueSize < 0 then
    (some "remote write queue size can't be negative", cfg)
  else if cfg.RemoteWriteQueue.Enabled && cfg.RemoteWriteQueue.QueueSize == 0 then
    (some "a 0 size queue will drop all the data", cfg)
  else if cfg.RemoteWriteQueue.NumConsumers < 0 then
    (some "remote write consumer number can't be negative", cfg)
  else if cfg.MultiTenancy.Enabled && cfg.MultiTenancy.Header == ""
      && cfg.MultiTenancy.QueryParam == "" then
    (some "one of multi_tenancy header or query_param should be set", cfg)
  else if cfg.MultiTenancy.Enabled && cfg.MultiTenancy.FromLabel == "" then
    (some "from_label should be set to find tenant name", cfg)
  else
    (none, cfg)

/-- The five validation rules in the fixed order the spec lists them
(§4.2 items 1–5), each as its guard paired with its reason.  Written from
the spec's wording, to be compared with `Config.Validate`. -/
def specRules (cfg : Config) : List (Bool × String) :=
  [ (cfg.RemoteWriteQueue.QueueSize < 0,
      "remote write queue size can't be negative"),
    (cfg.RemoteWriteQueue.Enabled && cfg.RemoteWriteQueue.QueueSize == 0,
      "a 0 size queue will drop all the data"),
    (cfg.RemoteWriteQueue.NumConsumers < 0,
      "remote write consumer number can't be negative"),
    (cfg.MultiTenancy.Enabled && cfg.MultiTenancy.Header == ""
        && cfg.MultiTenancy.QueryParam == "",
      "one of multi_tenancy header or query_param should be set"),
    (cfg.MultiTenancy.Enabled && cfg.MultiTenancy.FromLabel == "",
      "from_label should be set to find tenant name") ]

/-- Fail-fast evaluation: the reason of the first rule whose guard fires,
`none` when no guard fires. -/
def firstFailing : List (Bool × String) → Option String
  | [] => none
  | (b, msg) :: rest => if b then some msg else firstFailing rest

/-- The all-zero default configuration: queue disabled with size 0 and 0
consumers, multi-tenancy disabled, every string empty, WAL absent. -/
def defaultConfig : Config :=
  { ExporterSettings := { id := "" }
    TimeoutSettings := { Timeout := 0 }
    RetrySettings :=
      { Enabled := false, InitialInterval := 0, MaxInterval := 0,
        MaxElapsedTime := 0 }
    sanitizeLabel := false
    Namespace := ""
    RemoteWriteQueue := { Enabled := false, QueueSize := 0, NumConsumers := 0 }
    MultiTenancy :=
      { Enabled := false, Header := "", QueryParam := "", FromLabel := "",
        DefaultTenant := "" }
    ExternalLabels := []
    HTTPClientSettings := { Endpoint := "" }
    ResourceToTelemetrySettings := { Enabled := false }
    WAL := none }

/-- A configuration violating both the negative-queue-size rule and the
negative-consumer-count rule. -/
def bothNegativeCfg : Config :=
  { defaultConfig with
      RemoteWriteQueue := { Enabled := false, QueueSize := -1, NumConsumers := -1 } }

/-- A configuration violating both the negative-queue-size rule and the
multi-tenancy missing-header/query-param rule. -/
def negQueueNoHeaderCfg : Config :=
  { defaultConfig with
      RemoteWriteQueue := { Enabled := false, QueueSize := -1, NumConsumers := 0 }
      MultiTenancy :=
        { Enabled := true, Header := "", QueryParam := "", FromLabel := "x",
          DefaultTenant := "" } }

/-- A configuration violating both the negative-queue-size rule and the
multi-tenancy missing-from-label rule. -/
def negQueueNoFromLabelCfg : Config :=
  { defaultConfig with
      RemoteWriteQueue := { Enabled := false, QueueSize := -1, NumConsumers := 0 }
      MultiTenancy :=
        { Enabled := true, Header := "X-Tenant", QueryParam := "", FromLabel := "",
          DefaultTenant := "" } }

/-- A configuration that agrees with `defaultConfig` on the three queue
fields and the four validation-relevant multi-tenancy fields but differs on
`Namespace`, `sanitizeLabel`, `ExternalLabels`, `DefaultTenant`, transport
settings and `WAL`. -/
def noisyDefaultCfg : Config :=
  { defaultConfig with
      Namespace := "myns"
      sanitizeLabel := true
      ExternalLabels := [("__replica", "a")]
      MultiTenancy := { defaultConfig.MultiTenancy with DefaultTenant := "acme" }
      HTTPClientSettings := { Endpoint := "http://remote:9090/api/v1/write" }
      TimeoutSettings := { Timeout := 30 }
      RetrySettings :=
        { Enabled := true, InitialInterval := 1, MaxInterval := 10,
          MaxElapsedTime := 100 }
      ResourceToTelemetrySettings := { Enabled := true }
      WAL := some { Directory := "/tmp/wal", BufferSize := 300 } }

/-- Modelled from the spec: a feature-flag gate of the process-wide
registry (`featuregate.Gate` of the external collector library, not under
this repository's sources). -/
structure Gate where
  ID : String
  Enabled : Bool
  Description : String
deriving DecidableEq, Repr

/-- Embeds the package-level variable `dropSanitizationGate` from
`config.go`. -/
def dropSanitizationGate : Gate :=
  { ID := "exporter.prometheusremotewrite.PermissiveLabelSanitization"
    Enabled := false
    Description := "Controls whether to change labels starting with '_' to 'key_'" }

/-- Modelled from the spec: the process-wide feature-flag registry
(`featuregate.Registry` of the external collector library).  `MustRegister`
fails loudly when a gate with the same identifier is already registered,
never silently overwriting; success appends the gate. -/
def registerGate (r : List Gate) (g : Gate) : Except String (List Gate) :=
  if r.any (fun g0 => g0.ID == g.ID) then
    Except.error ("attempted to register an already registered gate " ++ g.ID)
  else
    Except.ok (r ++ [g])

/-- Embeds `func init()` of `config.go`: starting from the empty registry,
module initialization registers `dropSanitizationGate` once. -/
def registryAfterInit : Except String (List Gate) :=
  registerGate [] dropSanitizationGate

/-- C1: `Validate` evaluates the five checks in the fixed order the spec
lists (negative queue size, zero-size enabled queue, negative consumer
count, multi-tenancy missing header/query_param, multi-tenancy missing
from_label) and returns the reason of the first failing check: on every
configuration it returns exactly the fail-fast evaluation of the spec's
ordered rule list. -/
theorem validate_is_first_failing_rule (cfg : Config) :
    cfg.Validate = firstFailing (specRules cfg) := by
  simp only [Config.Validate, specRules, firstFailing, decide_eq_true_eq]

/-- C2: whenever no reject rule fires — queue size nonnegative, not
(enabled queue of size 0), consumer count nonnegative, not (multi-tenancy
enabled with both header and query_param empty), not (multi-tenancy
enabled with empty from_label) — `Validate` returns the nil error. -/
theorem validate_accepts_when_no_rule_fires (cfg : Config)
    (h1 : 0 ≤ cfg.RemoteWriteQueue.QueueSize)
    (h2 : ¬(cfg.RemoteWriteQueue.Enabled = true ∧ cfg.RemoteWriteQueue.QueueSize = 0))
    (h3 : 0 ≤ cfg.RemoteWriteQueue.NumConsumers)
    (h4 : ¬(cfg.MultiTenancy.Enabled = true ∧ cfg.MultiTenancy.Header = ""
        ∧ cfg.MultiTenancy.QueryParam = ""))
    (h5 : ¬(cfg.MultiTenancy.Enabled = true ∧ cfg.MultiTenancy.FromLabel = "")) :
    cfg.Validate = none := by
  simp only [Config.Validate]
  split_ifs <;> first | rfl | (exfalso; omega) | simp_all

/-- C2 witness: the all-zero default configuration satisfies every
no-fire condition and is accepted. -/
theorem validate_accepts_when_no_rule_fires_witness :
    defaultConfig.Validate = none :=
  validate_accepts_when_no_rule_fires defaultConfig (by decide) (by decide)
    (by decide) (by decide) (by decide)

/-- C3: any configuration whose queue size is negative is rejected with
the negative-queue-size message, regardless of every other field. -/
theorem validate_negative_queue_size (cfg : Config)
    (h : cfg.RemoteWriteQueue.QueueSize < 0) :
    cfg.Validate = some "remote write queue size can't be negative" := by
  simp [Config.Validate, h]

/-- C3 witness: evaluated on a concrete configuration with queue size -1,
enabled queue and negative consumer count. -/
theorem validate_negative_queue_size_witness :
    bothNegativeCfg.Validate = some "remote write queue size can't be negative" :=
  validate_negative_queue_size bothNegativeCfg (by decide)

/-- C4: any configuration with the queue enabled and queue size 0 is
rejected with the zero-size-queue message. -/
theorem validate_zero_size_enabled_queue (cfg : Config)
    (he : cfg.RemoteWriteQueue.Enabled = true)
    (hs : cfg.RemoteWriteQueue.QueueSize = 0) :
    cfg.Validate = some "a 0 size queue will drop all the data" := by
  simp [Config.Validate, he, hs]

/-- C4 witness: evaluated on the concrete configuration of the spec's
scenario B (enabled queue of size 0 with 5 consumers). -/
theorem validate_zero_size_enabled_queue_witness :
    ({ defaultConfig with
        RemoteWriteQueue :=
          { Enabled := true, QueueSize := 0, NumConsumers := 5 } } :
      Config).Validate = some "a 0 size queue will drop all the data" :=
  validate_zero_size_enabled_queue _ (by decide) (by decide)

/-- C5 counterexample: a configuration with a negative consumer count but
also a negative queue size is rejected with the queue-size message, not
the consumer message, so the claim's universal statement fails. -/
theorem negative_consumers_message_counterexample :
    bothNegativeCfg.RemoteWriteQueue.NumConsumers < 0 ∧
    bothNegativeCfg.Validate ≠ some "remote write consumer number can't be negative" := by
  constructor
  · decide
  · simp [bothNegativeCfg, defaultConfig, Config.Validate]

/-- C5 amended: any configuration with a negative consumer count whose
two earlier queue checks pass (queue size nonnegative and not an enabled
queue of size 0) is rejected with the negative-consumer message. -/
theorem validate_negative_consumers (cfg : Config)
    (hq : 0 ≤ cfg.RemoteWriteQueue.QueueSize)
    (hz : ¬(cfg.RemoteWriteQueue.Enabled = true ∧ cfg.RemoteWriteQueue.QueueSize = 0))
    (h : cfg.RemoteWriteQueue.NumConsumers < 0) :
    cfg.Validate = some "remote write consumer number can't be negative" := by
  have h1 : ¬ cfg.RemoteWriteQueue.QueueSize < 0 := by omega
  have h2 : ¬ (cfg.RemoteWriteQueue.Enabled && cfg.RemoteWriteQueue.QueueSize == 0) = true := by
    simp only [Bool.and_eq_true, beq_iff_eq]
    exact fun hc => hz ⟨hc.1, hc.2⟩
  simp [Config.Validate, h1, h2, h]

/-- C5 amended witness: evaluated on a concrete valid-queue configuration
with -3 consumers. -/
theorem validate_negative_consumers_witness :
    ({ defaultConfig with
        RemoteWriteQueue :=
          { Enabled := true, QueueSize := 10, NumConsumers := -3 } } :
      Config).Validate = some "remote write consumer number can't be negative" :=
  validate_negative_consumers _ (by decide) (by decide) (by decide)

/-- C6 counterexample: a configuration with multi-tenancy enabled, empty
header and empty query_param but a negative queue size is rejected with
the queue-size message, not the missing-header-or-query-param message, so
the claim's universal statement fails. -/
theorem missing_header_message_counterexample :
    negQueueNoHeaderCfg.MultiTenancy.Enabled = true ∧
    negQueueNoHeaderCfg.MultiTenancy.Header = "" ∧
    negQueueNoHeaderCfg.MultiTenancy.QueryParam = "" ∧
    negQueueNoHeaderCfg.Validate ≠ some "one of multi_tenancy header or query_param should be set" := by
  refine ⟨rfl, rfl, rfl, ?_⟩
  simp [negQueueNoHeaderCfg, defaultConfig, Config.Validate]

/-- C6 amended: any configuration whose three queue checks pass and whose
multi-tenancy is enabled with both header and query_param empty is
rejected with the missing-header-or-query-param message, irrespective of
from_label. -/
theorem validate_missing_header_and_query_param (cfg : Config)
    (hq : 0 ≤ cfg.RemoteWriteQueue.QueueSize)
    (hz : ¬(cfg.RemoteWriteQueue.Enabled = true ∧ cfg.RemoteWriteQueue.QueueSize = 0))
    (hc : 0 ≤ cfg.RemoteWriteQueue.NumConsumers)
    (he : cfg.MultiTenancy.Enabled = true)
    (hh : cfg.MultiTenancy.Header = "")
    (hp : cfg.MultiTenancy.QueryParam = "") :
    cfg.Validate = some "one of multi_tenancy header or query_param should be set" := by
  have h1 : ¬ cfg.RemoteWriteQueue.QueueSize < 0 := by omega
  have h2 : ¬ (cfg.RemoteWriteQueue.Enabled && cfg.RemoteWriteQueue.QueueSize == 0) = true := by
    simp only [Bool.and_eq_true, beq_iff_eq]
    exact fun hx => hz ⟨hx.1, hx.2⟩
  have h3 : ¬ cfg.RemoteWriteQueue.NumConsumers < 0 := by omega
  simp [Config.Validate, h1, h2, h3, he, hh, hp]

/-- C6 amended witness: evaluated on a concrete configuration with a valid
queue, multi-tenancy enabled, empty header and query_param, and a
non-empty from_label. -/
theorem validate_missing_header_and_query_param_witness :
    ({ defaultConfig with
        MultiTenancy :=
          { Enabled := true, Header := "", QueryParam := "", FromLabel := "t",
            DefaultTenant := "" } } :
      Config).Validate = some "one of multi_tenancy header or query_param should be set" :=
  validate_missing_header_and_query_param _ (by decide) (by decide) (by decide)
    (by decide) (by decide) (by decide)

/-- C7 counterexample: a configuration with multi-tenancy enabled, a
non-empty header and an empty from_label but a negative queue size is
rejected with the queue-size message, not the missing-from-label message,
so the claim's universal statement fails. -/
theorem missing_from_label_message_counterexample :
    negQueueNoFromLabelCfg.MultiTenancy.Enabled = true ∧
    negQueueNoFromLabelCfg.MultiTenancy.Header ≠ "" ∧
    negQueueNoFromLabelCfg.MultiTenancy.FromLabel = "" ∧
    negQueueNoFromLabelCfg.Validate ≠ some "from_label should be set to find tenant name" := by
  refine ⟨rfl, by decide, rfl, ?_⟩
  simp [negQueueNoFromLabelCfg, defaultConfig, Config.Validate]

/-- C7 amended: any configuration whose three queue checks pass and whose
multi-tenancy is enabled with at least one of header and query_param
non-empty and an empty from_label is rejected with the missing-from-label
message. -/
theorem validate_missing_from_label (cfg : Config)
    (hq : 0 ≤ cfg.RemoteWriteQueue.QueueSize)
    (hz : ¬(cfg.RemoteWriteQueue.Enabled = true ∧ cfg.RemoteWriteQueue.QueueSize = 0))
    (hc : 0 ≤ cfg.RemoteWriteQueue.NumConsumers)
    (he : cfg.MultiTenancy.Enabled = true)
    (hhp : cfg.MultiTenancy.Header ≠ "" ∨ cfg.MultiTenancy.QueryParam ≠ "")
    (hf : cfg.MultiTenancy.FromLabel = "") :
    cfg.Validate = some "from_label should be set to find tenant name" := by
  have h1 : ¬ cfg.RemoteWriteQueue.QueueSize < 0 := by omega
  have h2 : ¬ (cfg.RemoteWriteQueue.Enabled && cfg.RemoteWriteQueue.QueueSize == 0) = true := by
    simp only [Bool.and_eq_true, beq_iff_eq]
    exact fun hx => hz ⟨hx.1, hx.2⟩
  have h3 : ¬ cfg.RemoteWriteQueue.NumConsumers < 0 := by omega
  simp [Config.Validate, h1, h2, h3, he, hf]
  intro hH
  rcases hhp with hx | hx
  · exact absurd hH hx
  · exact hx

/-- C7 amended witness: evaluated on the spec's concrete scenario C
(multi-tenancy enabled, header "X-Tenant", empty query_param and empty
from_label) on top of a valid queue. -/
theorem validate_missing_from_label_witness :
    ({ defaultConfig with
        MultiTenancy :=
          { Enabled := true, Header := "X-Tenant", QueryParam := "",
            FromLabel := "", DefaultTenant := "" } } :
      Config).Validate = some "from_label should be set to find tenant name" :=
  validate_missing_from_label _ (by decide) (by decide) (by decide) (by decide)
    (Or.inl (by decide)) (by decide)

/-- C8: `Validate` is purely functional over its receiver: the
state-passing embedding of the method leaves the configuration unchanged
at every exit, its returned error equals the pure function's result, and
two calls on equal configurations return the same result. -/
theorem validate_pure_frame (cfg cfg' : Config) (h : cfg = cfg') :
    cfg.ValidateSt = (cfg'.Validate, cfg) := by
  subst h
  simp only [Config.ValidateSt, Config.Validate]
  split_ifs <;> rfl

/-- C8 witness: evaluated on the default configuration. -/
theorem validate_pure_frame_witness :
    defaultConfig.ValidateSt = (defaultConfig.Validate, defaultConfig) :=
  validate_pure_frame defaultConfig defaultConfig rfl

/-- C9: registering the PermissiveLabelSanitization gate into an empty
registry succeeds and yields a registry holding exactly that one gate with
default disabled; registering it a second time with the same identifier
fails loudly instead of silently overwriting. -/
theorem featuregate_double_register_fails :
    registryAfterInit = Except.ok [dropSanitizationGate] ∧
    registerGate [dropSanitizationGate] dropSanitizationGate =
      Except.error ("attempted to register an already registered gate "
        ++ dropSanitizationGate.ID) ∧
    dropSanitizationGate.Enabled = false := by
  refine ⟨rfl, ?_, rfl⟩
  rfl

/-- C10: the result of `Validate` depends only on the three queue fields
and the four validation-relevant multi-tenancy fields: two configurations
agreeing on those seven fields get identical results, whatever their
`Namespace`, `ExternalLabels`, `DefaultTenant`, `sanitizeLabel`, `WAL`
and transport/retry/timeout/conversion settings. -/
theorem validate_depends_only_on_seven_fields (c1 c2 : Config)
    (hqe : c1.RemoteWriteQueue.Enabled = c2.RemoteWriteQueue.Enabled)
    (hqs : c1.RemoteWriteQueue.QueueSize = c2.RemoteWriteQueue.QueueSize)
    (hqn : c1.RemoteWriteQueue.NumConsumers = c2.RemoteWriteQueue.NumConsumers)
    (hme : c1.MultiTenancy.Enabled = c2.MultiTenancy.Enabled)
    (hmh : c1.MultiTenancy.Header = c2.MultiTenancy.Header)
    (hmp : c1.MultiTenancy.QueryParam = c2.MultiTenancy.QueryParam)
    (hmf : c1.MultiTenancy.FromLabel = c2.MultiTenancy.FromLabel) :
    c1.Validate = c2.Validate := by
  simp only [Config.Validate, hqe, hqs, hqn, hme, hmh, hmp, hmf]

/-- C10 witness: the default configuration and a configuration differing
from it on namespace, labels, default tenant, sanitization, transport,
retry, timeout, conversion and WAL — but agreeing on the seven fields —
get the same result. -/
theorem validate_depends_only_on_seven_fields_witness :
    defaultConfig.Validate = noisyDefaultCfg.Validate :=
  validate_depends_only_on_seven_fields defaultConfig noisyDefaultCfg
    rfl rfl rfl rfl rfl rfl rfl

end PRW
